import Mathlib

/-!
# ghostunnel, `certloader/spiffe_tls_config.go`

A shallow embedding of the SPIFFE Workload API certificate source of ghostunnel
and the properties its specification states about it.

The Go file is a thin layer over two collaborators that it calls into:

* the package's own `Logger` interface (a printf-style sink), and
* go-spiffe v2: `workloadapi.X509Source`, `x509svid.SVID` and the
  `spiffetls/tlsconfig` hooks, and `(*tls.Config).Clone` of crypto/tls.

The collaborators are not part of the file; each is embedded from its
documented behaviour under the name it has in Go, in the section "The
collaborators", and the methods of the file itself follow in "The source file",
statement by statement.

Stateful code is embedded by explicit state passing over a `World`:

* `configs` is the heap of `tls.Config` objects (a `*tls.Config` is an address
  into it, an address outside the heap plays the role of the nil pointer),
* `sources` is the heap of `workloadapi.X509Source` objects,
* `trace` records, in order, every call made on a collaborator that has an
  effect outside the heaps (`Logger.Printf`, closing a source's watcher).

What the environment decides (whether the Workload API answers, what closing a
watcher returns, whether a peer chain parses and verifies, what a closure
supplied by the caller does) is the parameter `Env`; every theorem holds for
every environment.

A Go closure stored in a `tls.Config` field is embedded by the data it closes
over (`CertHook`, `VerifyHook`); calling it at handshake time is `CertHook.call`
and `VerifyHook.call`, which read the world of that moment.

A result of type `Option _` whose `none` is not a Go value stands for a run
time panic (nil pointer dereference).
-/

namespace Certloader

/-! ## Values -/

/-- A Go `error` value, by its message; a nil error is `none : Option Error`. -/
abbrev Error := String

/-- One variadic `interface{}` argument of a printf-style call. -/
inductive Arg where
  | str (s : String)
  | int (i : Int)
  deriving DecidableEq, Repr

/-- Modelled from the spec: the package's `Logger` interface, which is declared
outside `spiffe_tls_config.go`: a printf-style sink. A logger is identified by
its name; a `Printf` on it is recorded in the world's trace. -/
structure Logger where
  name : String
  deriving DecidableEq, Repr

/-- The struct `spiffeLogger` of the source: it wraps a `Logger`. -/
structure spiffeLogger where
  log : Logger
  deriving DecidableEq, Repr

/-- An X.509 certificate, by its raw DER bytes. -/
abbrev RawCert := List Nat

/-- The go-spiffe type `spiffeid.ID`. -/
structure SpiffeID where
  trustDomain : String
  path : String
  deriving DecidableEq, Repr

/-- The go-spiffe type `x509svid.SVID`: an identity, its certificate chain
(leaf first) and its private key. -/
structure SVID where
  ID : SpiffeID
  Certificates : List RawCert
  PrivateKey : Option Nat
  deriving DecidableEq, Repr

/-- The Go composite literal `x509svid.SVID{}`: every field has its zero value. -/
def SVID.zero : SVID :=
  { ID := { trustDomain := "", path := "" }, Certificates := [], PrivateKey := none }

/-- The go-spiffe type `x509bundle.Bundle`: the trust anchors of a trust domain. -/
structure X509Bundle where
  trustDomain : String
  authorities : List RawCert
  deriving DecidableEq, Repr

/-- The go-spiffe type `workloadapi.X509Context`, one update of the Workload
API (a credential snapshot): the default SVID and the bundle set. -/
structure X509Context where
  svid : SVID
  bundles : List X509Bundle
  deriving DecidableEq, Repr

/-- The state of a go-spiffe `workloadapi.X509Source` object: the `closed`
flag and the data of the last update its watcher delivered (`svid` is nil until
the first one). -/
structure X509Source where
  closed : Bool
  svid : Option SVID
  bundles : List X509Bundle
  deriving DecidableEq, Repr

/-- The Go type `tls.Certificate`, as far as the hooks fill it in. -/
structure TLSCertificate where
  Certificate : List RawCert
  PrivateKey : Option Nat
  deriving DecidableEq, Repr

/-- The Go type `tls.ClientAuthType`. -/
inductive ClientAuthType where
  | NoClientCert
  | RequestClientCert
  | RequireAnyClientCert
  | VerifyClientCertIfGiven
  | RequireAndVerifyClientCert
  deriving DecidableEq, Repr

/-- The implementations of the go-spiffe interface `x509svid.Source` that occur:
a `*workloadapi.X509Source` (by address) and a `*x509svid.SVID` (an SVID is its
own source). -/
inductive SVIDSource where
  | x509Source (p : Nat)
  | svid (s : SVID)
  deriving DecidableEq, Repr

/-- The implementations of the go-spiffe interface `x509bundle.Source` that
occur: a `*workloadapi.X509Source` (by address) and a fixed bundle. -/
inductive BundleSource where
  | x509Source (p : Nat)
  | bundle (b : X509Bundle)
  deriving DecidableEq, Repr

/-- The go-spiffe type `tlsconfig.Authorizer`, a function from the verified
peer to an error, by the constructor that made it: `AuthorizeAny()`,
`AuthorizeID(allowed)`, `AuthorizeMemberOf(trustDomain)`. -/
inductive Authorizer where
  | any
  | id (allowed : SpiffeID)
  | memberOf (trustDomain : String)
  deriving DecidableEq, Repr

/-- The go-spiffe constructor `tlsconfig.AuthorizeAny()`. -/
def AuthorizeAny : Authorizer := Authorizer.any

/-- Calling an `Authorizer` on the peer identity and its verified chains: nil
(`none`) accepts the peer. -/
def Authorizer.call : Authorizer → SpiffeID → List (List RawCert) → Option Error
  | .any, _, _ => none
  | .id allowed, actual, _ =>
      if actual = allowed then none else some "unexpected ID"
  | .memberOf td, actual, _ =>
      if actual.trustDomain = td then none else some "unexpected trust domain"

/-- A closure in the `GetCertificate` or `GetClientCertificate` field of a
`tls.Config`: the one go-spiffe's `tlsconfig.GetCertificate(svid)` and
`tlsconfig.GetClientCertificate(svid)` return, or one supplied by the caller. -/
inductive CertHook where
  | spiffe (svid : SVIDSource)
  | caller (tag : Nat)
  deriving DecidableEq, Repr

/-- A closure in the `VerifyPeerCertificate` field of a `tls.Config`: the one
go-spiffe's `tlsconfig.VerifyPeerCertificate(bundle, authorizer)` returns
(`spiffe`), the one `tlsconfig.WrapVerifyPeerCertificate(wrapped, bundle,
authorizer)` returns around a non-nil closure `wrapped` that was in the field
before (`wrapped`), or one supplied by the caller (`caller`). -/
inductive VerifyHook where
  | spiffe (bundle : BundleSource) (authorizer : Authorizer)
  | wrapped (inner : VerifyHook) (bundle : BundleSource) (authorizer : Authorizer)
  | caller (tag : Nat)
  deriving DecidableEq, Repr

/-- The go-spiffe function `tlsconfig.WrapVerifyPeerCertificate`: with a nil
`wrapped` it is `tlsconfig.VerifyPeerCertificate(bundle, authorizer)`, otherwise
the closure that verifies, authorizes and then calls `wrapped`. -/
def WrapVerifyPeerCertificate (wrapped : Option VerifyHook) (bundle : BundleSource)
    (authorizer : Authorizer) : VerifyHook :=
  match wrapped with
  | none => VerifyHook.spiffe bundle authorizer
  | some inner => VerifyHook.wrapped inner bundle authorizer

/-- The Go type `tls.Config`. The first eight fields are the ones go-spiffe's
hooks assign; the others stand for what the caller configures (they are copied
by `Clone` and assigned by nobody here). -/
structure TLSConfig where
  Certificates : List TLSCertificate
  NameToCertificate : List (String × TLSCertificate)
  GetCertificate : Option CertHook
  GetClientCertificate : Option CertHook
  VerifyPeerCertificate : Option VerifyHook
  RootCAs : Option (List RawCert)
  ClientAuth : ClientAuthType
  InsecureSkipVerify : Bool
  GetConfigForClient : Option Nat
  VerifyConnection : Option Nat
  NextProtos : List String
  ServerName : String
  ClientCAs : Option (List RawCert)
  CipherSuites : List Nat
  PreferServerCipherSuites : Bool
  SessionTicketsDisabled : Bool
  MinVersion : Nat
  MaxVersion : Nat
  CurvePreferences : List Nat
  Renegotiation : Nat
  deriving DecidableEq, Repr

/-- A call on a collaborator, as the trace records it. -/
inductive Event where
  | printf (l : Logger) (format : String) (args : List Arg)
  | closeWatcher (source : Nat)
  deriving DecidableEq, Repr

/-- The state the code runs in. -/
structure World where
  configs : List TLSConfig
  sources : List X509Source
  trace : List Event
  deriving DecidableEq, Repr

/-- What the environment decides. -/
structure Env where
  /-- The Workload API at an address: the first update, or the error with which
  `workloadapi.NewX509Source` gives up. -/
  connect : String → Except Error X509Context
  /-- What closing the watcher of the source at an address returns. -/
  watcherClose : Nat → X509Source → Option Error
  /-- The first half of go-spiffe's `x509svid.ParseAndVerify`: parse the raw
  chain and read the SPIFFE ID of its leaf. -/
  leafID : List RawCert → Except Error SpiffeID
  /-- The second half of `x509svid.ParseAndVerify`: verify the chain against the
  authorities of a bundle, giving the verified chains. -/
  verifyChain : List RawCert → X509Bundle → Except Error (List (List RawCert))
  /-- A certificate closure supplied by the caller. -/
  callerCert : Nat → Except Error TLSCertificate
  /-- A verification closure supplied by the caller, on the raw chain and the
  verified chains it is handed. -/
  callerVerify : Nat → List RawCert → List (List RawCert) → Option Error

/-! ## The collaborators -/

/-- The method `Printf` of the `Logger` interface: one record in the trace. -/
def Logger.Printf (l : Logger) (format : String) (args : List Arg) (w : World) : World :=
  { w with trace := w.trace ++ [Event.printf l format args] }

/-- The method `(*tls.Config).Clone` of crypto/tls: a nil receiver gives nil,
otherwise a fresh object with the same fields. (Go copies slice headers; the
hooks below assign whole fields and write no element, so the sharing cannot be
observed.) -/
def Clone (p : Nat) (w : World) : Nat × World :=
  match w.configs[p]? with
  | none => (p, w)
  | some c => (w.configs.length, { w with configs := w.configs ++ [c] })

/-- Assignments through a `*tls.Config`: panics on nil. -/
def updateConfig (p : Nat) (f : TLSConfig → TLSConfig) (w : World) : Option World :=
  match w.configs[p]? with
  | none => none
  | some c => some { w with configs := w.configs.set p (f c) }

/-- The go-spiffe function `resetAuthFields` of `tlsconfig`. It leaves
`VerifyPeerCertificate` in place: the hooks wrap what the field holds. -/
def resetAuthFields (c : TLSConfig) : TLSConfig :=
  { c with
    Certificates := []
    ClientAuth := ClientAuthType.NoClientCert
    GetCertificate := none
    GetClientCertificate := none
    InsecureSkipVerify := false
    NameToCertificate := []
    RootCAs := none }

/-- The assignments go-spiffe's `tlsconfig.HookMTLSClientConfig` makes to the
fields of the config it is given. -/
def mtlsClientFields (svid : SVIDSource) (bundle : BundleSource) (authorizer : Authorizer)
    (c : TLSConfig) : TLSConfig :=
  { resetAuthFields c with
    GetClientCertificate := some (CertHook.spiffe svid)
    InsecureSkipVerify := true
    VerifyPeerCertificate :=
      some (WrapVerifyPeerCertificate (resetAuthFields c).VerifyPeerCertificate bundle
        authorizer) }

/-- The assignments go-spiffe's `tlsconfig.HookMTLSServerConfig` makes to the
fields of the config it is given. -/
def mtlsServerFields (svid : SVIDSource) (bundle : BundleSource) (authorizer : Authorizer)
    (c : TLSConfig) : TLSConfig :=
  { resetAuthFields c with
    ClientAuth := ClientAuthType.RequireAnyClientCert
    GetCertificate := some (CertHook.spiffe svid)
    VerifyPeerCertificate :=
      some (WrapVerifyPeerCertificate (resetAuthFields c).VerifyPeerCertificate bundle
        authorizer) }

/-- The go-spiffe function `tlsconfig.HookMTLSClientConfig`, which assigns
through the pointer `config`. -/
def HookMTLSClientConfig (config : Nat) (svid : SVIDSource) (bundle : BundleSource)
    (authorizer : Authorizer) (w : World) : Option World :=
  updateConfig config (mtlsClientFields svid bundle authorizer) w

/-- The go-spiffe function `tlsconfig.HookMTLSServerConfig`, which assigns
through the pointer `config`. -/
def HookMTLSServerConfig (config : Nat) (svid : SVIDSource) (bundle : BundleSource)
    (authorizer : Authorizer) (w : World) : Option World :=
  updateConfig config (mtlsServerFields svid bundle authorizer) w

/-- The method `(*X509Source).GetX509SVID` of go-spiffe. -/
def X509Source.GetX509SVID (s : X509Source) : Except Error SVID :=
  if s.closed then .error "x509source: source is closed"
  else
    match s.svid with
    | none => .error "x509source: missing X509-SVID"
    | some v => .ok v

/-- The method `(*X509Source).GetX509BundleForTrustDomain` of go-spiffe. -/
def X509Source.GetX509BundleForTrustDomain (s : X509Source) (td : String) :
    Except Error X509Bundle :=
  if s.closed then .error "x509source: source is closed"
  else
    match s.bundles.find? (fun b => b.trustDomain = td) with
    | none => .error "x509bundle: no X.509 bundle for trust domain"
    | some b => .ok b

/-- The method `GetX509SVID` of the interface `x509svid.Source`: an
`X509Source` answers from its current state, an `SVID` with itself. -/
def SVIDSource.GetX509SVID (src : SVIDSource) (w : World) : Option (Except Error SVID) :=
  match src with
  | .x509Source p => (w.sources[p]?).map X509Source.GetX509SVID
  | .svid s => some (.ok s)

/-- The method `GetX509BundleForTrustDomain` of the interface
`x509bundle.Source`. -/
def BundleSource.GetX509BundleForTrustDomain (src : BundleSource) (td : String) (w : World) :
    Option (Except Error X509Bundle) :=
  match src with
  | .x509Source p => (w.sources[p]?).map (fun s => s.GetX509BundleForTrustDomain td)
  | .bundle b =>
      some (if b.trustDomain = td then .ok b
            else .error "x509bundle: no X.509 bundle for trust domain")

/-- The go-spiffe function `getTLSCertificate` of `tlsconfig`: the certificate
presented in a handshake is the chain and key of the SVID the source gives at
that moment. -/
def getTLSCertificate (svid : SVIDSource) (w : World) : Option (Except Error TLSCertificate) :=
  match svid.GetX509SVID w with
  | none => none
  | some (.error e) => some (.error e)
  | some (.ok s) => some (.ok { Certificate := s.Certificates, PrivateKey := s.PrivateKey })

/-- Calling a certificate closure during a handshake in world `w`. -/
def CertHook.call (env : Env) (h : CertHook) (w : World) : Option (Except Error TLSCertificate) :=
  match h with
  | .spiffe svid => getTLSCertificate svid w
  | .caller tag => some (env.callerCert tag)

/-- The go-spiffe function `x509svid.ParseAndVerify`: parse the raw chain,
read the SPIFFE ID of its leaf, ask the bundle source for the bundle of the
ID's trust domain and verify the chain against it; the ID and the verified
chains, or the first error. -/
def ParseAndVerify (env : Env) (raw : List RawCert) (bundle : BundleSource) (w : World) :
    Option (Except Error (SpiffeID × List (List RawCert))) :=
  match env.leafID raw with
  | .error e => some (.error e)
  | .ok id =>
      match bundle.GetX509BundleForTrustDomain id.trustDomain w with
      | none => none
      | some (.error e) => some (.error ("x509svid: could not get X509 bundle: " ++ e))
      | some (.ok b) =>
          match env.verifyChain raw b with
          | .error e => some (.error e)
          | .ok chains => some (.ok (id, chains))

/-- Calling a verification closure during a handshake in world `w` with the raw
chain the peer presented and the chains the TLS layer verified. go-spiffe's
closures ignore the second argument: they run `x509svid.ParseAndVerify` against
the bundle source and then the authorizer; the wrapping closure then calls the
closure it wraps on the raw chain and the chains `ParseAndVerify` gave. -/
def VerifyHook.call (env : Env) :
    VerifyHook → List RawCert → List (List RawCert) → World → Option (Option Error)
  | .caller tag, raw, verified, _ => some (env.callerVerify tag raw verified)
  | .spiffe bundle authorizer, raw, _, w =>
      match ParseAndVerify env raw bundle w with
      | none => none
      | some (.error e) => some (some e)
      | some (.ok (id, certs)) => some (authorizer.call id certs)
  | .wrapped inner bundle authorizer, raw, _, w =>
      match ParseAndVerify env raw bundle w with
      | none => none
      | some (.error e) => some (some e)
      | some (.ok (id, certs)) =>
          match authorizer.call id certs with
          | some e => some (some e)
          | none => inner.call env raw certs w

/-- The go-spiffe function `workloadapi.NewX509Source`: it blocks until the
Workload API has delivered the first update and returns a source that holds it,
or gives up with an error. The logger it is given is the watcher's. -/
def NewX509Source (env : Env) (addr : String) (_logger : spiffeLogger) (w : World) :
    Except Error Nat × World :=
  match env.connect addr with
  | .error e => (.error e, w)
  | .ok ctx =>
      (.ok w.sources.length,
        { w with
          sources := w.sources ++ [{ closed := false, svid := some ctx.svid, bundles := ctx.bundles }] })

/-- The method `(*X509Source).setX509Context` of go-spiffe, which the watcher
calls on every update of the Workload API: the new snapshot replaces the old. -/
def setX509Context (p : Nat) (ctx : X509Context) (w : World) : World :=
  match w.sources[p]? with
  | none => w
  | some s =>
      { w with sources := w.sources.set p { s with svid := some ctx.svid, bundles := ctx.bundles } }

/-- The method `(*X509Source).Close` of go-spiffe: sets the closed flag and
closes the watcher, whose result it returns. -/
def X509Source.Close (env : Env) (p : Nat) (w : World) : Option (Option Error × World) :=
  match w.sources[p]? with
  | none => none
  | some s =>
      some (env.watcherClose p s,
        { w with
          sources := w.sources.set p { s with closed := true }
          trace := w.trace ++ [Event.closeWatcher p] })

/-! ## The source file -/

/-- The struct `spiffeTLSConfigSource`. Its methods only read it. -/
structure spiffeTLSConfigSource where
  source : Nat
  log : Logger
  deriving DecidableEq, Repr

/-- The struct `spiffeTLSConfig`. -/
structure spiffeTLSConfig where
  base : Nat
  source : Nat
  deriving DecidableEq, Repr

/-- The method `spiffeLogger.Debugf`. -/
def spiffeLogger.Debugf (l : spiffeLogger) (format : String) (args : List Arg) (w : World) :
    World :=
  l.log.Printf ("(spiffe) [DEBUG]: " ++ format) args w

/-- The method `spiffeLogger.Infof`. -/
def spiffeLogger.Infof (l : spiffeLogger) (format : String) (args : List Arg) (w : World) :
    World :=
  l.log.Printf ("(spiffe) [INFO]: " ++ format) args w

/-- The method `spiffeLogger.Warnf`. -/
def spiffeLogger.Warnf (l : spiffeLogger) (format : String) (args : List Arg) (w : World) :
    World :=
  l.log.Printf ("(spiffe) [WARN]: " ++ format) args w

/-- The method `spiffeLogger.Errorf`. -/
def spiffeLogger.Errorf (l : spiffeLogger) (format : String) (args : List Arg) (w : World) :
    World :=
  l.log.Printf ("(spiffe) [ERROR]: " ++ format) args w

/-- The function `TLSConfigSourceFromWorkloadAPI`: the pair it returns (a nil
`TLSConfigSource` is `none`) and the world it leaves. -/
def TLSConfigSourceFromWorkloadAPI (env : Env) (addr : String) (log : Logger) (w : World) :
    (Option spiffeTLSConfigSource × Option Error) × World :=
  match NewX509Source env addr { log := log } w with
  | (.error err, w1) => ((none, some err), w1)
  | (.ok source, w1) => ((some { source := source, log := log }, none), w1)

/-- The method `(*spiffeTLSConfigSource).Reload`. -/
def spiffeTLSConfigSource.Reload (_s : spiffeTLSConfigSource) (w : World) :
    Option Error × World :=
  (none, w)

/-- The method `(*spiffeTLSConfigSource).CanServe`. -/
def spiffeTLSConfigSource.CanServe (_s : spiffeTLSConfigSource) : Bool :=
  true

/-- The method `(*spiffeTLSConfigSource).newConfig`. -/
def spiffeTLSConfigSource.newConfig (s : spiffeTLSConfigSource) (base : Nat) (w : World) :
    (Option spiffeTLSConfig × Option Error) × World :=
  let w1 := s.log.Printf "waiting for initial SPIFFE Workload API update..." [] w
  let w2 := s.log.Printf "received SPIFFE Workload API update." [] w1
  ((some { base := base, source := s.source }, none), w2)

/-- The method `(*spiffeTLSConfigSource).GetClientConfig`. -/
def spiffeTLSConfigSource.GetClientConfig (s : spiffeTLSConfigSource) (base : Nat) (w : World) :
    (Option spiffeTLSConfig × Option Error) × World :=
  s.newConfig base w

/-- The method `(*spiffeTLSConfigSource).GetServerConfig`. -/
def spiffeTLSConfigSource.GetServerConfig (s : spiffeTLSConfigSource) (base : Nat) (w : World) :
    (Option spiffeTLSConfig × Option Error) × World :=
  s.newConfig base w

/-- The method `(*spiffeTLSConfigSource).Close`. -/
def spiffeTLSConfigSource.Close (env : Env) (s : spiffeTLSConfigSource) (w : World) :
    Option (Option Error × World) :=
  X509Source.Close env s.source w

/-- The method `(*spiffeTLSConfig).GetClientConfig`: the address of the config
it returns and the world it leaves. -/
def spiffeTLSConfig.GetClientConfig (c : spiffeTLSConfig) (w : World) : Option (Nat × World) :=
  let (config, w1) := Clone c.base w
  match HookMTLSClientConfig config (SVIDSource.x509Source c.source)
      (BundleSource.x509Source c.source) AuthorizeAny w1 with
  | none => none
  | some w2 => some (config, w2)

/-- The method `(*spiffeTLSConfig).GetServerConfig`: the address of the config
it returns and the world it leaves. -/
def spiffeTLSConfig.GetServerConfig (c : spiffeTLSConfig) (w : World) : Option (Nat × World) :=
  let (config, w1) := Clone c.base w
  let svid := SVID.zero
  match HookMTLSServerConfig config (SVIDSource.svid svid)
      (BundleSource.x509Source c.source) AuthorizeAny w1 with
  | none => none
  | some w2 => some (config, w2)

/-! ## A concrete environment and world

Two credential snapshots `snapshotA` and `snapshotB`, a Workload API that
answers at one address only, and a world with one caller-owned base config. -/

/-- The first snapshot of the rotation scenario. -/
def snapshotA : X509Context :=
  { svid := { ID := { trustDomain := "example.org", path := "/server" },
              Certificates := [[1, 2, 3], [9]], PrivateKey := some 11 },
    bundles := [{ trustDomain := "example.org", authorities := [[9]] }] }

/-- The second snapshot of the rotation scenario. -/
def snapshotB : X509Context :=
  { svid := { ID := { trustDomain := "example.org", path := "/server" },
              Certificates := [[4, 5, 6], [8]], PrivateKey := some 12 },
    bundles := [{ trustDomain := "example.org", authorities := [[8]] }] }

/-- An environment: the Workload API answers with `snapshotA` at
`unix:///run/agent.sock` and nowhere else, closing the watcher of source `1`
fails, a peer chain is valid when its last certificate is an authority of the
bundle, and the caller's verification closure `3` rejects every peer. -/
def demoEnv : Env where
  connect := fun addr =>
    if addr = "unix:///run/agent.sock" then .ok snapshotA else .error "connection refused"
  watcherClose := fun p _ => if p = 1 then some "watcher: close failed" else none
  leafID := fun raw =>
    match raw with
    | [] => .error "x509svid: empty certificates chain"
    | _ :: _ => .ok { trustDomain := "example.org", path := "/peer" }
  verifyChain := fun raw b =>
    match raw.getLast? with
    | none => .error "x509svid: empty certificates chain"
    | some root =>
        if root ∈ b.authorities then .ok [raw]
        else .error "x509svid: could not verify leaf certificate"
  callerCert := fun _ => .error "no certificate"
  callerVerify := fun tag _ _ => if tag = 3 then some "caller says no" else none

/-- A base config as a caller sets it up: closures of its own in the
authentication fields, and transport settings. -/
def demoBase : TLSConfig :=
  { Certificates := [{ Certificate := [[7]], PrivateKey := some 1 }]
    NameToCertificate := []
    GetCertificate := some (CertHook.caller 1)
    GetClientCertificate := some (CertHook.caller 2)
    VerifyPeerCertificate := some (VerifyHook.caller 3)
    RootCAs := some [[7]]
    ClientAuth := ClientAuthType.RequireAndVerifyClientCert
    InsecureSkipVerify := false
    GetConfigForClient := none
    VerifyConnection := some 4
    NextProtos := ["h2"]
    ServerName := "ghostunnel"
    ClientCAs := some [[7]]
    CipherSuites := [4865, 4866]
    PreferServerCipherSuites := true
    SessionTicketsDisabled := true
    MinVersion := 771
    MaxVersion := 772
    CurvePreferences := [29]
    Renegotiation := 0 }

/-- A world with the base config at address `0` and no source yet. -/
def demoWorld : World :=
  { configs := [demoBase], sources := [], trace := [] }

/-- The logger of the scenarios. -/
def demoLogger : Logger := { name := "ghostunnel" }

/-- The world `demoWorld` once a source holding `snapshotA` is at address `0`. -/
def demoWorldA : World :=
  { configs := [demoBase]
    sources := [{ closed := false, svid := some snapshotA.svid, bundles := snapshotA.bundles }]
    trace := [] }

/-- The config source over the source at address `0`. -/
def demoSource : spiffeTLSConfigSource := { source := 0, log := demoLogger }

/-- A world with two open sources: `snapshotA` at address `0`, `snapshotB` at
address `1`. -/
def demoWorldTwo : World :=
  { configs := [demoBase]
    sources := [{ closed := false, svid := some snapshotA.svid, bundles := snapshotA.bundles },
                { closed := false, svid := some snapshotB.svid, bundles := snapshotB.bundles }]
    trace := [] }

/-- The world `demoWorldA` with a base config that has no verification closure
of its own. -/
def demoWorldPlain : World :=
  { demoWorldA with configs := [{ demoBase with VerifyPeerCertificate := none }] }

/-- Whether the X509Source at address `p` holds a credential snapshot. -/
def holdsSnapshot (p : Nat) (w : World) : Bool :=
  match w.sources[p]? with
  | none => false
  | some src => src.svid.isSome

/-! ## Calls in sequence -/

/-- One of the calls under which `CanServe` is claimed stable. -/
inductive Call where
  | reload
  | getClientConfig (base : Nat)
  | getServerConfig (base : Nat)
  deriving DecidableEq, Repr

/-- The world after one call on the config source `s`. -/
def Call.run (s : spiffeTLSConfigSource) (w : World) : Call → World
  | .reload => (s.Reload w).2
  | .getClientConfig base => (s.GetClientConfig base w).2
  | .getServerConfig base => (s.GetServerConfig base w).2

/-- The world after a sequence of calls on the config source `s`. -/
def runCalls (s : spiffeTLSConfigSource) (w : World) (calls : List Call) : World :=
  calls.foldl (Call.run s) w

/-- The number of times the trace records a close of the watcher of `p`. -/
def closeCount (p : Nat) (w : World) : Nat :=
  (w.trace.filter (fun e => e = Event.closeWatcher p)).length

/-- The number of `Printf` calls the trace records. -/
def printfCount (w : World) : Nat :=
  (w.trace.filter (fun e => match e with | .printf _ _ _ => true | _ => false)).length

/-! ## Shared lemmas -/

theorem string_append_right_cancel (a b f : String) (h : a ++ f = b ++ f) : a = b := by
  have h1 := congrArg String.data h
  simp at h1
  exact String.ext h1

theorem lt_of_getElem?_some {α : Type} {l : List α} {p : Nat} {c : α}
    (h : l[p]? = some c) : p < l.length :=
  (List.getElem?_eq_some_iff.mp h).1

theorem Clone_of_some {p : Nat} {w : World} {cfg : TLSConfig} (h : w.configs[p]? = some cfg) :
    Clone p w = (w.configs.length, { w with configs := w.configs ++ [cfg] }) := by
  simp [Clone, h]

theorem updateConfig_fresh (w : World) (cfg : TLSConfig) (f : TLSConfig → TLSConfig) :
    updateConfig w.configs.length f { w with configs := w.configs ++ [cfg] }
      = some { w with configs := w.configs ++ [f cfg] } := by
  simp [updateConfig]

/-- On a nil base both `(*spiffeTLSConfig).GetClientConfig` and
`(*spiffeTLSConfig).GetServerConfig` panic: `Clone` returns nil and the hook
assigns through it. -/
theorem GetConfig_nil_base (c : spiffeTLSConfig) (w : World) (h : w.configs[c.base]? = none) :
    c.GetClientConfig w = none ∧ c.GetServerConfig w = none := by
  simp [spiffeTLSConfig.GetClientConfig, spiffeTLSConfig.GetServerConfig, Clone,
    HookMTLSClientConfig, HookMTLSServerConfig, updateConfig, h]

/-- What `(*spiffeTLSConfig).GetClientConfig` returns on a non-nil base. -/
theorem GetClientConfig_of_some (c : spiffeTLSConfig) (w : World) (cfg : TLSConfig)
    (h : w.configs[c.base]? = some cfg) :
    c.GetClientConfig w = some (w.configs.length,
      { w with configs := w.configs ++
          [mtlsClientFields (SVIDSource.x509Source c.source) (BundleSource.x509Source c.source)
            AuthorizeAny cfg] }) := by
  simp [spiffeTLSConfig.GetClientConfig, Clone_of_some h, HookMTLSClientConfig,
    updateConfig_fresh]

/-- What `(*spiffeTLSConfig).GetServerConfig` returns on a non-nil base. -/
theorem GetServerConfig_of_some (c : spiffeTLSConfig) (w : World) (cfg : TLSConfig)
    (h : w.configs[c.base]? = some cfg) :
    c.GetServerConfig w = some (w.configs.length,
      { w with configs := w.configs ++
          [mtlsServerFields (SVIDSource.svid SVID.zero) (BundleSource.x509Source c.source)
            AuthorizeAny cfg] }) := by
  simp [spiffeTLSConfig.GetServerConfig, Clone_of_some h, HookMTLSServerConfig,
    updateConfig_fresh]

theorem newConfig_sources (s : spiffeTLSConfigSource) (base : Nat) (w : World) :
    (s.newConfig base w).2.sources = w.sources ∧ (s.newConfig base w).2.configs = w.configs := by
  simp [spiffeTLSConfigSource.newConfig, Logger.Printf]

theorem Call_run_sources (s : spiffeTLSConfigSource) (w : World) (c : Call) :
    (c.run s w).sources = w.sources := by
  cases c <;>
    simp [Call.run, spiffeTLSConfigSource.Reload, spiffeTLSConfigSource.GetClientConfig,
      spiffeTLSConfigSource.GetServerConfig, newConfig_sources]

theorem runCalls_sources (s : spiffeTLSConfigSource) (calls : List Call) (w : World) :
    (runCalls s w calls).sources = w.sources := by
  induction calls generalizing w with
  | nil => rfl
  | cons c cs ih =>
      have h := ih (c.run s w)
      simp only [runCalls, List.foldl_cons] at h ⊢
      rw [h, Call_run_sources]

theorem newConfig_result (s : spiffeTLSConfigSource) (base : Nat) (w : World) :
    (s.newConfig base w).1 = (some { base := base, source := s.source }, none) := rfl

/-- Calling the go-spiffe certificate closure over an X509Source in a world
where that source is in state `src`. -/
theorem CertHook_call_x509Source (env : Env) (p : Nat) (w : World) (src : X509Source)
    (h : w.sources[p]? = some src) :
    (CertHook.spiffe (SVIDSource.x509Source p)).call env w
      = some (match src.GetX509SVID with
              | .error e => .error e
              | .ok v => .ok { Certificate := v.Certificates, PrivateKey := v.PrivateKey }) := by
  simp only [CertHook.call, getTLSCertificate, SVIDSource.GetX509SVID, h, Option.map_some']
  cases src.GetX509SVID <;> rfl

/-- What `x509svid.ParseAndVerify` gives against an X509Source in a world where
that source is in state `src`, on a chain whose leaf identity is `id`. -/
theorem ParseAndVerify_x509Source (env : Env) (p : Nat) (w : World) (src : X509Source)
    (raw : List RawCert) (id : SpiffeID)
    (h : w.sources[p]? = some src) (hid : env.leafID raw = .ok id) :
    ParseAndVerify env raw (BundleSource.x509Source p) w
      = some (match src.GetX509BundleForTrustDomain id.trustDomain with
              | .error e => .error ("x509svid: could not get X509 bundle: " ++ e)
              | .ok b =>
                  match env.verifyChain raw b with
                  | .error e => .error e
                  | .ok chains => .ok (id, chains)) := by
  simp only [ParseAndVerify, hid, BundleSource.GetX509BundleForTrustDomain, h, Option.map_some']
  cases src.GetX509BundleForTrustDomain id.trustDomain with
  | error e => rfl
  | ok b =>
      dsimp only
      cases hv : env.verifyChain raw b <;> rfl

/-- Calling the closure `WrapVerifyPeerCertificate` returns: verify, authorize,
then the wrapped closure if there is one. -/
theorem WrapVerifyPeerCertificate_call (env : Env) (inner : Option VerifyHook)
    (bundle : BundleSource) (a : Authorizer) (raw : List RawCert)
    (verified : List (List RawCert)) (w : World) :
    (WrapVerifyPeerCertificate inner bundle a).call env raw verified w
      = match ParseAndVerify env raw bundle w with
        | none => none
        | some (.error e) => some (some e)
        | some (.ok (id, certs)) =>
            match a.call id certs with
            | some e => some (some e)
            | none =>
                match inner with
                | none => some none
                | some f => f.call env raw certs w := by
  cases inner with
  | none =>
      simp only [WrapVerifyPeerCertificate, VerifyHook.call]
      rcases hp : ParseAndVerify env raw bundle w with _ | (e | ⟨id, certs⟩)
      · rfl
      · rfl
      · dsimp only
        cases a.call id certs <;> rfl
  | some f =>
      simp only [WrapVerifyPeerCertificate, VerifyHook.call]

/-- Calling the go-spiffe verification closure over an X509Source in a world
where that source is in state `src`, on a chain whose leaf identity is `id`. -/
theorem VerifyHook_call_x509Source (env : Env) (p : Nat) (a : Authorizer)
    (inner : Option VerifyHook) (w : World) (src : X509Source) (raw : List RawCert)
    (verified : List (List RawCert)) (id : SpiffeID)
    (h : w.sources[p]? = some src) (hid : env.leafID raw = .ok id) :
    (WrapVerifyPeerCertificate inner (BundleSource.x509Source p) a).call env raw verified w
      = match src.GetX509BundleForTrustDomain id.trustDomain with
        | .error e => some (some ("x509svid: could not get X509 bundle: " ++ e))
        | .ok b =>
            match env.verifyChain raw b with
            | .error e => some (some e)
            | .ok chains =>
                match a.call id chains with
                | some e => some (some e)
                | none =>
                    match inner with
                    | none => some none
                    | some f => f.call env raw chains w := by
  rw [WrapVerifyPeerCertificate_call, ParseAndVerify_x509Source env p w src raw id h hid]
  cases src.GetX509BundleForTrustDomain id.trustDomain with
  | error e => rfl
  | ok b =>
      dsimp only
      cases hv : env.verifyChain raw b <;> rfl

/-- A chain that does not parse is refused by the go-spiffe verification
closure with the parse error. -/
theorem VerifyHook_call_parse_error (env : Env) (inner : Option VerifyHook)
    (bundle : BundleSource) (a : Authorizer) (raw : List RawCert)
    (verified : List (List RawCert)) (w : World) (e : Error)
    (he : env.leafID raw = .error e) :
    (WrapVerifyPeerCertificate inner bundle a).call env raw verified w = some (some e) := by
  rw [WrapVerifyPeerCertificate_call]
  simp [ParseAndVerify, he]

theorem setX509Context_sources (p : Nat) (ctx : X509Context) (w : World) (src : X509Source)
    (h : w.sources[p]? = some src) :
    (setX509Context p ctx w).sources[p]?
      = some { src with svid := some ctx.svid, bundles := ctx.bundles } := by
  have hlt := lt_of_getElem?_some h
  simp [setX509Context, h, List.getElem?_set, hlt]

/-- On a closed source the go-spiffe verification closure returns an error for
every chain: the chain does not parse, or the bundle lookup is refused. -/
theorem VerifyHook_call_closed (env : Env) (p : Nat) (a : Authorizer)
    (inner : Option VerifyHook) (w : World) (src : X509Source) (raw : List RawCert)
    (verified : List (List RawCert))
    (h : w.sources[p]? = some src) (hc : src.closed = true) :
    ∃ e, (WrapVerifyPeerCertificate inner (BundleSource.x509Source p) a).call env raw verified w
      = some (some e) := by
  cases hid : env.leafID raw with
  | error e => exact ⟨e, VerifyHook_call_parse_error env inner _ a raw verified w e hid⟩
  | ok id =>
      refine ⟨"x509svid: could not get X509 bundle: " ++ "x509source: source is closed", ?_⟩
      rw [VerifyHook_call_x509Source env p a inner w src raw verified id h hid]
      simp [X509Source.GetX509BundleForTrustDomain, hc]

/-! ## The logger wrapper -/

/-- Claim C10: each of `Debugf`, `Infof`, `Warnf` and `Errorf` of `spiffeLogger`
makes exactly one `Printf` call on the wrapped logger (the trace grows by that
one record and nothing else in the world changes), with the format
`"(spiffe) [LEVEL]: " ++ f` and the arguments unchanged and in order; the
emitted format ends with `f`; the four level strings, and so the four formats
emitted for one `f`, are pairwise distinct. -/
theorem spiffeLogger_levels (l : spiffeLogger) (f : String) (args : List Arg) (w : World) :
    (l.Debugf f args w
        = { w with trace := w.trace ++ [Event.printf l.log ("(spiffe) [DEBUG]: " ++ f) args] }
      ∧ l.Infof f args w
        = { w with trace := w.trace ++ [Event.printf l.log ("(spiffe) [INFO]: " ++ f) args] }
      ∧ l.Warnf f args w
        = { w with trace := w.trace ++ [Event.printf l.log ("(spiffe) [WARN]: " ++ f) args] }
      ∧ l.Errorf f args w
        = { w with trace := w.trace ++ [Event.printf l.log ("(spiffe) [ERROR]: " ++ f) args] })
    ∧ (printfCount (l.Debugf f args w) = printfCount w + 1
      ∧ printfCount (l.Infof f args w) = printfCount w + 1
      ∧ printfCount (l.Warnf f args w) = printfCount w + 1
      ∧ printfCount (l.Errorf f args w) = printfCount w + 1)
    ∧ (f.data <:+ ("(spiffe) [DEBUG]: " ++ f).data
      ∧ f.data <:+ ("(spiffe) [INFO]: " ++ f).data
      ∧ f.data <:+ ("(spiffe) [WARN]: " ++ f).data
      ∧ f.data <:+ ("(spiffe) [ERROR]: " ++ f).data)
    ∧ ("(spiffe) [DEBUG]: " ++ f ≠ "(spiffe) [INFO]: " ++ f
      ∧ "(spiffe) [DEBUG]: " ++ f ≠ "(spiffe) [WARN]: " ++ f
      ∧ "(spiffe) [DEBUG]: " ++ f ≠ "(spiffe) [ERROR]: " ++ f
      ∧ "(spiffe) [INFO]: " ++ f ≠ "(spiffe) [WARN]: " ++ f
      ∧ "(spiffe) [INFO]: " ++ f ≠ "(spiffe) [ERROR]: " ++ f
      ∧ "(spiffe) [WARN]: " ++ f ≠ "(spiffe) [ERROR]: " ++ f) := by
  refine ⟨⟨rfl, rfl, rfl, rfl⟩, ?_, ?_, ?_⟩
  · simp [printfCount, spiffeLogger.Debugf, spiffeLogger.Infof, spiffeLogger.Warnf,
      spiffeLogger.Errorf, Logger.Printf, List.filter_append]
  · simp only [String.data_append]
    exact ⟨List.suffix_append _ _, List.suffix_append _ _, List.suffix_append _ _,
      List.suffix_append _ _⟩
  · refine ⟨?_, ?_, ?_, ?_, ?_, ?_⟩ <;>
      exact fun h => absurd (string_append_right_cancel _ _ _ h) (by decide)

/-! ## Reload -/

/-- Claim C6: `Reload` is a no-op success: it returns a nil error and leaves
the world as it found it, so the X509Source the config source owns is in the
same state (same snapshot, same closed flag), no `Printf` or other call on a
collaborator is recorded, no config object changes, and `CanServe` answers as
before. The config source itself is only read, so it keeps its source and its
logger. -/
theorem Reload_noop (s : spiffeTLSConfigSource) (w : World) :
    (s.Reload w).1 = none
    ∧ (s.Reload w).2 = w
    ∧ (s.Reload w).2.sources[s.source]? = w.sources[s.source]?
    ∧ (s.Reload w).2.trace = w.trace
    ∧ printfCount (s.Reload w).2 = printfCount w
    ∧ s.CanServe = true := by
  simp [spiffeTLSConfigSource.Reload, spiffeTLSConfigSource.CanServe]

/-! ## Construction -/

/-- Claim C7: `TLSConfigSourceFromWorkloadAPI addr log` fails exactly when
`workloadapi.NewX509Source` for `addr` (with the logger wrapped in
`spiffeLogger`) fails; then it returns that same error and a nil config source;
otherwise it returns a nil error and a config source that holds exactly the
created X509Source and the given logger. In both cases the world is the one
`NewX509Source` left. -/
theorem TLSConfigSourceFromWorkloadAPI_result (env : Env) (addr : String) (log : Logger)
    (w : World) :
    (∀ e, (NewX509Source env addr { log := log } w).1 = .error e →
        (TLSConfigSourceFromWorkloadAPI env addr log w).1 = (none, some e))
    ∧ (∀ p, (NewX509Source env addr { log := log } w).1 = .ok p →
        (TLSConfigSourceFromWorkloadAPI env addr log w).1
          = (some { source := p, log := log }, none))
    ∧ ((TLSConfigSourceFromWorkloadAPI env addr log w).1.2 ≠ none
        ↔ ∃ e, (NewX509Source env addr { log := log } w).1 = .error e)
    ∧ ((TLSConfigSourceFromWorkloadAPI env addr log w).1.1 = none
        ↔ (TLSConfigSourceFromWorkloadAPI env addr log w).1.2 ≠ none)
    ∧ (TLSConfigSourceFromWorkloadAPI env addr log w).2
        = (NewX509Source env addr { log := log } w).2 := by
  unfold TLSConfigSourceFromWorkloadAPI
  rcases hN : NewX509Source env addr { log := log } w with ⟨r, w1⟩
  cases r <;> simp

/-- Claim C7 at concrete inputs: where the Workload API does not answer the
constructor returns the connection error and no source; where it answers it
returns a source over the fresh X509Source at address `0`. -/
theorem TLSConfigSourceFromWorkloadAPI_result_witness :
    (TLSConfigSourceFromWorkloadAPI demoEnv "unix:///nowhere" demoLogger demoWorld).1
        = (none, some "connection refused")
    ∧ (TLSConfigSourceFromWorkloadAPI demoEnv "unix:///run/agent.sock" demoLogger demoWorld).1
        = (some { source := 0, log := demoLogger }, none) :=
  ⟨(TLSConfigSourceFromWorkloadAPI_result demoEnv "unix:///nowhere" demoLogger demoWorld).1
      "connection refused" (by simp [NewX509Source, demoEnv]),
   (TLSConfigSourceFromWorkloadAPI_result demoEnv "unix:///run/agent.sock" demoLogger
      demoWorld).2.1 0 (by simp [NewX509Source, demoEnv, demoWorld])⟩

/-! ## Close -/

/-- Claim C8: `Close` on a config source is one call of `Close` on the
X509Source it owns: the trace records exactly one more close of that source's
watcher (and of no other), the source is marked closed, and the result is
exactly what the backend's close returned: an error if and only if it returned
one, and then the same. -/
theorem Close_propagates (env : Env) (s : spiffeTLSConfigSource) (w : World) (src : X509Source)
    (h : w.sources[s.source]? = some src) :
    ∃ w1, s.Close env w = some (env.watcherClose s.source src, w1)
      ∧ s.Close env w = X509Source.Close env s.source w
      ∧ w1.trace = w.trace ++ [Event.closeWatcher s.source]
      ∧ closeCount s.source w1 = closeCount s.source w + 1
      ∧ (∀ q, q ≠ s.source → closeCount q w1 = closeCount q w)
      ∧ w1.sources[s.source]? = some { src with closed := true }
      ∧ (∀ q, q ≠ s.source → w1.sources[q]? = w.sources[q]?)
      ∧ w1.configs = w.configs := by
  have hlt := lt_of_getElem?_some h
  refine ⟨{ w with
      sources := w.sources.set s.source { src with closed := true }
      trace := w.trace ++ [Event.closeWatcher s.source] }, ?_, rfl, rfl, ?_, ?_, ?_, ?_, rfl⟩
  · simp [spiffeTLSConfigSource.Close, X509Source.Close, h]
  · simp [closeCount, List.filter_append]
  · intro q hq
    simp [closeCount, List.filter_append, Ne.symm hq]
  · simp [List.getElem?_set, hlt]
  · intro q hq
    simp [List.getElem?_set, Ne.symm hq]

/-- Claim C8 at a concrete input: closing the config source over source `1`,
whose watcher fails to close, returns that failure, and the trace holds one
close of that watcher. -/
theorem Close_propagates_witness :
    ∃ w1, spiffeTLSConfigSource.Close demoEnv { source := 1, log := demoLogger } demoWorldTwo
        = some (some "watcher: close failed", w1)
      ∧ closeCount 1 w1 = 1 := by
  obtain ⟨w1, h1, _, _, h4, _⟩ :=
    Close_propagates demoEnv { source := 1, log := demoLogger } demoWorldTwo _ rfl
  exact ⟨w1, h1, h4⟩

/-! ## The configs and the caller's base -/

/-- Claim C3: `GetClientConfig()` and `GetServerConfig()` of `spiffeTLSConfig`
leave the caller's base config unchanged. The config they return is a new
object (its address differs from the base's and from every address in use), the
base and every other config object that existed hold after the call what they
held before, sources and trace are untouched, and the returned config differs
from the base at most in the eight authentication fields the hooks assign:
putting the base's values back into those eight gives the base. -/
theorem hooks_leave_base_unchanged (c : spiffeTLSConfig) (w : World) (cfg : TLSConfig)
    (h : w.configs[c.base]? = some cfg) :
    (∃ p w1 r, c.GetClientConfig w = some (p, w1)
        ∧ p ≠ c.base ∧ w.configs[p]? = none
        ∧ w1.configs[c.base]? = some cfg
        ∧ (∀ q, q < w.configs.length → w1.configs[q]? = w.configs[q]?)
        ∧ w1.configs.length = w.configs.length + 1
        ∧ w1.sources = w.sources ∧ w1.trace = w.trace
        ∧ w1.configs[p]? = some r
        ∧ { r with
            Certificates := cfg.Certificates
            NameToCertificate := cfg.NameToCertificate
            GetCertificate := cfg.GetCertificate
            GetClientCertificate := cfg.GetClientCertificate
            VerifyPeerCertificate := cfg.VerifyPeerCertificate
            RootCAs := cfg.RootCAs
            ClientAuth := cfg.ClientAuth
            InsecureSkipVerify := cfg.InsecureSkipVerify } = cfg)
    ∧ (∃ p w1 r, c.GetServerConfig w = some (p, w1)
        ∧ p ≠ c.base ∧ w.configs[p]? = none
        ∧ w1.configs[c.base]? = some cfg
        ∧ (∀ q, q < w.configs.length → w1.configs[q]? = w.configs[q]?)
        ∧ w1.configs.length = w.configs.length + 1
        ∧ w1.sources = w.sources ∧ w1.trace = w.trace
        ∧ w1.configs[p]? = some r
        ∧ { r with
            Certificates := cfg.Certificates
            NameToCertificate := cfg.NameToCertificate
            GetCertificate := cfg.GetCertificate
            GetClientCertificate := cfg.GetClientCertificate
            VerifyPeerCertificate := cfg.VerifyPeerCertificate
            RootCAs := cfg.RootCAs
            ClientAuth := cfg.ClientAuth
            InsecureSkipVerify := cfg.InsecureSkipVerify } = cfg) := by
  have hlt := lt_of_getElem?_some h
  constructor
  · refine ⟨_, _, mtlsClientFields (SVIDSource.x509Source c.source)
      (BundleSource.x509Source c.source) AuthorizeAny cfg,
      GetClientConfig_of_some c w cfg h, ?_, ?_, ?_, ?_, ?_, rfl, rfl, ?_, ?_⟩
    · exact Nat.ne_of_gt hlt
    · simp
    · simpa [List.getElem?_append_left hlt] using h
    · intro q hq
      simp [List.getElem?_append_left hq]
    · simp
    · simp
    · rfl
  · refine ⟨_, _, mtlsServerFields (SVIDSource.svid SVID.zero)
      (BundleSource.x509Source c.source) AuthorizeAny cfg,
      GetServerConfig_of_some c w cfg h, ?_, ?_, ?_, ?_, ?_, rfl, rfl, ?_, ?_⟩
    · exact Nat.ne_of_gt hlt
    · simp
    · simpa [List.getElem?_append_left hlt] using h
    · intro q hq
      simp [List.getElem?_append_left hq]
    · simp
    · simp
    · rfl

/-- Claim C3 at a concrete input: on the caller's base `demoBase` at address
`0` both methods return the fresh address `1`, and address `0` still holds
`demoBase`, with the caller's own closures and settings. -/
theorem hooks_leave_base_unchanged_witness :
    (∃ w1, spiffeTLSConfig.GetClientConfig { base := 0, source := 0 } demoWorldA = some (1, w1)
        ∧ w1.configs[0]? = some demoBase)
    ∧ (∃ w1, spiffeTLSConfig.GetServerConfig { base := 0, source := 0 } demoWorldA = some (1, w1)
        ∧ w1.configs[0]? = some demoBase) := by
  have h := hooks_leave_base_unchanged { base := 0, source := 0 } demoWorldA demoBase rfl
  obtain ⟨⟨p, w1, r, h1, _, _, h2, _⟩, ⟨q, w2, t, h3, _, _, h4, _⟩⟩ := h
  have hp : p = 1 := by
    have := congrArg (fun o => o.map Prod.fst) h1
    simpa [spiffeTLSConfig.GetClientConfig, Clone, HookMTLSClientConfig, updateConfig,
      demoWorldA] using this.symm
  have hq : q = 1 := by
    have := congrArg (fun o => o.map Prod.fst) h3
    simpa [spiffeTLSConfig.GetServerConfig, Clone, HookMTLSServerConfig, updateConfig,
      demoWorldA] using this.symm
  subst hp hq
  exact ⟨⟨w1, h1, h2⟩, ⟨w2, h3, h4⟩⟩

/-! ## The client config -/

/-- Claim C2: `GetClientConfig base` on a config source succeeds with a nil
error, and the `tls.Config` its result yields through `GetClientConfig()`
(called in any world `w1` where the base is a config `cfg`) is a clone of the
base (a new object that differs from `cfg` at most in the eight authentication
fields) whose client certificate closure and peer verification closure both
read the config source's own X509Source at handshake time: in every world
`w3`, whatever state `src` the source is in then, the certificate presented is
the chain and key of the SVID `src` gives, and a peer is verified against the
bundle `src` gives for the peer's trust domain; a peer that verifies is then
handed to the verification closure the base had, if it had one. So a snapshot
published after the config was made is the one the next handshake uses. -/
theorem client_config_follows_source (env : Env) (s : spiffeTLSConfigSource) (base : Nat)
    (w w1 : World) (cfg : TLSConfig) (h : w1.configs[base]? = some cfg) :
    ∃ c, (s.GetClientConfig base w).1 = (some c, none)
      ∧ ∃ p w2 r hC hV, c.GetClientConfig w1 = some (p, w2)
        ∧ p ≠ base ∧ w2.configs[p]? = some r ∧ w2.sources = w1.sources
        ∧ { r with
            Certificates := cfg.Certificates
            NameToCertificate := cfg.NameToCertificate
            GetCertificate := cfg.GetCertificate
            GetClientCertificate := cfg.GetClientCertificate
            VerifyPeerCertificate := cfg.VerifyPeerCertificate
            RootCAs := cfg.RootCAs
            ClientAuth := cfg.ClientAuth
            InsecureSkipVerify := cfg.InsecureSkipVerify } = cfg
        ∧ r.GetClientCertificate = some hC ∧ r.VerifyPeerCertificate = some hV
        ∧ hC = CertHook.spiffe (SVIDSource.x509Source s.source)
        ∧ hV = WrapVerifyPeerCertificate cfg.VerifyPeerCertificate
                (BundleSource.x509Source s.source) AuthorizeAny
        ∧ r.Certificates = [] ∧ r.GetCertificate = none ∧ r.RootCAs = none
        ∧ r.InsecureSkipVerify = true
        ∧ ∀ w3 src, w3.sources[s.source]? = some src →
            hC.call env w3
                = some (match src.GetX509SVID with
                        | .error e => .error e
                        | .ok v => .ok { Certificate := v.Certificates, PrivateKey := v.PrivateKey })
            ∧ (∀ raw verified e, env.leafID raw = .error e →
                hV.call env raw verified w3 = some (some e))
            ∧ (∀ raw verified id, env.leafID raw = .ok id →
                hV.call env raw verified w3
                  = match src.GetX509BundleForTrustDomain id.trustDomain with
                    | .error e => some (some ("x509svid: could not get X509 bundle: " ++ e))
                    | .ok b =>
                        match env.verifyChain raw b with
                        | .error e => some (some e)
                        | .ok chains =>
                            match cfg.VerifyPeerCertificate with
                            | none => some none
                            | some f => f.call env raw chains w3)
            ∧ (∀ ctx : X509Context,
                src = { closed := false, svid := some ctx.svid, bundles := ctx.bundles } →
                hC.call env w3
                  = some (.ok { Certificate := ctx.svid.Certificates,
                                PrivateKey := ctx.svid.PrivateKey })) := by
  refine ⟨{ base := base, source := s.source }, rfl, _, _,
    mtlsClientFields (SVIDSource.x509Source s.source) (BundleSource.x509Source s.source)
      AuthorizeAny cfg,
    CertHook.spiffe (SVIDSource.x509Source s.source),
    WrapVerifyPeerCertificate cfg.VerifyPeerCertificate (BundleSource.x509Source s.source)
      AuthorizeAny,
    GetClientConfig_of_some { base := base, source := s.source } w1 cfg h,
    Nat.ne_of_gt (lt_of_getElem?_some h), by simp, rfl, rfl, rfl, rfl, rfl, rfl, rfl, rfl, rfl,
    rfl, ?_⟩
  intro w3 src hsrc
  refine ⟨CertHook_call_x509Source env s.source w3 src hsrc, ?_, ?_, ?_⟩
  · intro raw verified e he
    exact VerifyHook_call_parse_error env _ _ _ raw verified w3 e he
  · intro raw verified id hid
    rw [VerifyHook_call_x509Source env s.source AuthorizeAny cfg.VerifyPeerCertificate w3 src
      raw verified id hsrc hid]
    cases src.GetX509BundleForTrustDomain id.trustDomain with
    | error e => rfl
    | ok b =>
        dsimp only
        cases hv : env.verifyChain raw b <;> rfl
  · intro ctx hctx
    rw [CertHook_call_x509Source env s.source w3 src hsrc, hctx]
    rfl

/-- Claim C2 at a concrete input (rotation without a new config object): the
client config made while the source held `snapshotA` presents the chain of
`snapshotA` in a handshake then, and the chain of `snapshotB` in a handshake
after that snapshot was published to the source; a peer chain that ends in the
authority of `snapshotA` is refused after the rotation, by the bundle of
`snapshotB`. -/
theorem client_config_follows_source_witness :
    ∃ c p w2 r hC hV, (demoSource.GetClientConfig 0 demoWorldPlain).1 = (some c, none)
      ∧ c.GetClientConfig demoWorldPlain = some (p, w2)
      ∧ w2.configs[p]? = some r
      ∧ r.GetClientCertificate = some hC ∧ r.VerifyPeerCertificate = some hV
      ∧ hC.call demoEnv w2 = some (.ok { Certificate := [[1, 2, 3], [9]], PrivateKey := some 11 })
      ∧ hC.call demoEnv (setX509Context 0 snapshotB w2)
          = some (.ok { Certificate := [[4, 5, 6], [8]], PrivateKey := some 12 })
      ∧ hV.call demoEnv [[42], [9]] [] w2 = some none
      ∧ hV.call demoEnv [[42], [9]] [] (setX509Context 0 snapshotB w2)
          = some (some "x509svid: could not verify leaf certificate") := by
  obtain ⟨c, hc, p, w2, r, hC, hV, h1, _, h2, hs, _, h3, h4, _, _, _, _, _, _, hall⟩ :=
    client_config_follows_source demoEnv demoSource 0 demoWorldPlain demoWorldPlain
      { demoBase with VerifyPeerCertificate := none } rfl
  have hA : w2.sources[demoSource.source]?
      = some { closed := false, svid := some snapshotA.svid, bundles := snapshotA.bundles } := by
    rw [hs]; rfl
  have hB := setX509Context_sources 0 snapshotB w2 _ hA
  refine ⟨c, p, w2, r, hC, hV, hc, h1, h2, h3, h4, ?_, ?_, ?_, ?_⟩
  · exact (hall w2 _ hA).2.2.2 snapshotA rfl
  · exact (hall (setX509Context 0 snapshotB w2) _ hB).2.2.2 snapshotB rfl
  · rw [(hall w2 _ hA).2.2.1 [[42], [9]] [] { trustDomain := "example.org", path := "/peer" } rfl]
    rfl
  · rw [(hall (setX509Context 0 snapshotB w2) _ hB).2.2.1 [[42], [9]] []
      { trustDomain := "example.org", path := "/peer" } rfl]
    rfl

/-! ## The verification policy -/

/-- Claim C9: the authorizer installed in the client config and in the server
config is `AuthorizeAny()`: it accepts every peer identity with every verified
chain. So on a peer whose chain parses and verifies against the bundle the
source gives, whoever the peer is and whatever that bundle is, the
verification closure of either config never returns an authorization error:
it returns nil when the base had no verification closure of its own, and
otherwise hands the peer on to that closure and returns what it returns. -/
theorem default_authorizer_accepts_any (env : Env) (c : spiffeTLSConfig) (w : World)
    (cfg : TLSConfig) (h : w.configs[c.base]? = some cfg) :
    (∃ p w1 r a, c.GetClientConfig w = some (p, w1) ∧ w1.configs[p]? = some r
        ∧ w1.sources = w.sources
        ∧ r.VerifyPeerCertificate
            = some (WrapVerifyPeerCertificate cfg.VerifyPeerCertificate
                (BundleSource.x509Source c.source) a)
        ∧ a = AuthorizeAny
        ∧ (∀ id chains, a.call id chains = none)
        ∧ ∀ w2 raw verified id bundle chains, env.leafID raw = .ok id →
            (BundleSource.x509Source c.source).GetX509BundleForTrustDomain id.trustDomain w2
              = some (.ok bundle) →
            env.verifyChain raw bundle = .ok chains →
            (WrapVerifyPeerCertificate cfg.VerifyPeerCertificate
                (BundleSource.x509Source c.source) a).call env raw verified w2
              = match cfg.VerifyPeerCertificate with
                | none => some none
                | some f => f.call env raw chains w2)
    ∧ (∃ p w1 r a, c.GetServerConfig w = some (p, w1) ∧ w1.configs[p]? = some r
        ∧ w1.sources = w.sources
        ∧ r.VerifyPeerCertificate
            = some (WrapVerifyPeerCertificate cfg.VerifyPeerCertificate
                (BundleSource.x509Source c.source) a)
        ∧ a = AuthorizeAny
        ∧ (∀ id chains, a.call id chains = none)
        ∧ ∀ w2 raw verified id bundle chains, env.leafID raw = .ok id →
            (BundleSource.x509Source c.source).GetX509BundleForTrustDomain id.trustDomain w2
              = some (.ok bundle) →
            env.verifyChain raw bundle = .ok chains →
            (WrapVerifyPeerCertificate cfg.VerifyPeerCertificate
                (BundleSource.x509Source c.source) a).call env raw verified w2
              = match cfg.VerifyPeerCertificate with
                | none => some none
                | some f => f.call env raw chains w2) := by
  have key : ∀ w2 raw verified id bundle chains, env.leafID raw = .ok id →
      (BundleSource.x509Source c.source).GetX509BundleForTrustDomain id.trustDomain w2
        = some (.ok bundle) →
      env.verifyChain raw bundle = .ok chains →
      (WrapVerifyPeerCertificate cfg.VerifyPeerCertificate
          (BundleSource.x509Source c.source) AuthorizeAny).call env raw verified w2
        = match cfg.VerifyPeerCertificate with
          | none => some none
          | some f => f.call env raw chains w2 := by
    intro w2 raw verified id bundle chains hid hb hv
    rw [WrapVerifyPeerCertificate_call]
    simp [ParseAndVerify, hid, hb, hv, AuthorizeAny, Authorizer.call]
  constructor
  · exact ⟨_, _, mtlsClientFields (SVIDSource.x509Source c.source)
      (BundleSource.x509Source c.source) AuthorizeAny cfg, AuthorizeAny,
      GetClientConfig_of_some c w cfg h, by simp, rfl, rfl, rfl, fun _ _ => rfl, key⟩
  · exact ⟨_, _, mtlsServerFields (SVIDSource.svid SVID.zero)
      (BundleSource.x509Source c.source) AuthorizeAny cfg, AuthorizeAny,
      GetServerConfig_of_some c w cfg h, by simp, rfl, rfl, rfl, fun _ _ => rfl, key⟩

/-- Claim C9 at concrete inputs: a peer `/peer` that is no identity the config
names anywhere, with a chain that verifies against the bundle of `snapshotA`,
is accepted by the verification closure of the client config made from a base
without a closure of its own; made from `demoBase`, whose own closure rejects
every peer, the closure returns that closure's error. -/
theorem default_authorizer_accepts_any_witness :
    (∃ p w1 r hV, spiffeTLSConfig.GetClientConfig { base := 0, source := 0 } demoWorldPlain
        = some (p, w1)
      ∧ w1.configs[p]? = some r ∧ r.VerifyPeerCertificate = some hV
      ∧ hV.call demoEnv [[42], [9]] [] demoWorldPlain = some none)
    ∧ (∃ p w1 r hV, spiffeTLSConfig.GetClientConfig { base := 0, source := 0 } demoWorldA
        = some (p, w1)
      ∧ w1.configs[p]? = some r ∧ r.VerifyPeerCertificate = some hV
      ∧ hV.call demoEnv [[42], [9]] [] demoWorldA = some (some "caller says no")) := by
  obtain ⟨⟨p, w1, r, a, h1, h2, _, h3, _, _, hall⟩, _⟩ :=
    default_authorizer_accepts_any demoEnv { base := 0, source := 0 } demoWorldPlain
      { demoBase with VerifyPeerCertificate := none } rfl
  obtain ⟨⟨q, w2, t, b, k1, k2, _, k3, _, _, kall⟩, _⟩ :=
    default_authorizer_accepts_any demoEnv { base := 0, source := 0 } demoWorldA demoBase rfl
  have hb : ∀ w0 : World, w0.sources = demoWorldA.sources →
      (BundleSource.x509Source 0).GetX509BundleForTrustDomain "example.org" w0
        = some (.ok { trustDomain := "example.org", authorities := [[9]] }) := by
    intro w0 hw0
    simp [BundleSource.GetX509BundleForTrustDomain, X509Source.GetX509BundleForTrustDomain,
      hw0, demoWorldA, snapshotA]
  constructor
  · exact ⟨p, w1, r, _, h1, h2, h3,
      hall demoWorldPlain [[42], [9]] [] { trustDomain := "example.org", path := "/peer" }
        { trustDomain := "example.org", authorities := [[9]] } [[[42], [9]]] rfl
        (hb demoWorldPlain rfl) (by simp [demoEnv])⟩
  · exact ⟨q, w2, t, _, k1, k2, k3,
      kall demoWorldA [[42], [9]] [] { trustDomain := "example.org", path := "/peer" }
        { trustDomain := "example.org", authorities := [[9]] } [[[42], [9]]] rfl
        (hb demoWorldA rfl) (by simp [demoEnv])⟩

/-! ## The server config -/

/-- Claim C1, the code at the failing input: the source holds `snapshotA`; the
server config made from it presents, in a handshake, the empty certificate of
the zero SVID and not the chain of `snapshotA`; after `snapshotB` is published
to the source it still presents the empty certificate and not the chain of
`snapshotB`. -/
theorem server_config_presents_zero_svid :
    ∃ c p w2 r hook, (demoSource.GetServerConfig 0 demoWorldA).1 = (some c, none)
      ∧ c.GetServerConfig demoWorldA = some (p, w2)
      ∧ w2.configs[p]? = some r ∧ r.GetCertificate = some hook
      ∧ hook = CertHook.spiffe (SVIDSource.svid SVID.zero)
      ∧ w2.sources[0]?
          = some { closed := false, svid := some snapshotA.svid, bundles := snapshotA.bundles }
      ∧ hook.call demoEnv w2 = some (.ok { Certificate := [], PrivateKey := none })
      ∧ (setX509Context 0 snapshotB w2).sources[0]?
          = some { closed := false, svid := some snapshotB.svid, bundles := snapshotB.bundles }
      ∧ hook.call demoEnv (setX509Context 0 snapshotB w2)
          = some (.ok { Certificate := [], PrivateKey := none })
      ∧ ({ Certificate := [], PrivateKey := none } : TLSCertificate)
          ≠ { Certificate := snapshotA.svid.Certificates, PrivateKey := snapshotA.svid.PrivateKey }
      ∧ ({ Certificate := [], PrivateKey := none } : TLSCertificate)
          ≠ { Certificate := snapshotB.svid.Certificates,
              PrivateKey := snapshotB.svid.PrivateKey } := by
  refine ⟨{ base := 0, source := 0 }, _, _,
    mtlsServerFields (SVIDSource.svid SVID.zero) (BundleSource.x509Source 0) AuthorizeAny
      demoBase, _, rfl,
    GetServerConfig_of_some { base := 0, source := 0 } demoWorldA demoBase rfl,
    rfl, rfl, rfl, rfl, rfl, rfl, rfl, by decide, by decide⟩

/-! ## Readiness -/

/-- Claim C4: `CanServe` is true only of a config source that has obtained a
credential snapshot. A config source exists only as the result of
`TLSConfigSourceFromWorkloadAPI`; before the call its X509Source does not
exist, and where the Workload API delivers no first snapshot the constructor
returns no config source at all. The config source it does return owns an open
X509Source that holds the first snapshot, `CanServe` is true of it, and it
stays so across every sequence of `Reload`, `GetClientConfig` and
`GetServerConfig` calls: `CanServe` is still true and the source still holds
its snapshot, untouched. -/
theorem CanServe_only_after_first_snapshot (env : Env) (addr : String) (log : Logger)
    (w w1 : World) (s : spiffeTLSConfigSource)
    (h : TLSConfigSourceFromWorkloadAPI env addr log w = ((some s, none), w1))
    (calls : List Call) :
    w.sources[s.source]? = none
    ∧ (∀ addr0 log0 w0 e, env.connect addr0 = .error e →
        (TLSConfigSourceFromWorkloadAPI env addr0 log0 w0).1 = (none, some e))
    ∧ (∃ ctx, env.connect addr = .ok ctx
        ∧ w1.sources[s.source]?
            = some { closed := false, svid := some ctx.svid, bundles := ctx.bundles })
    ∧ (s.CanServe = true → holdsSnapshot s.source w1 = true)
    ∧ s.CanServe = true
    ∧ (runCalls s w1 calls).sources = w1.sources
    ∧ (s.CanServe = true → holdsSnapshot s.source (runCalls s w1 calls) = true) := by
  have hsrc : w.sources[s.source]? = none
      ∧ ∃ ctx, env.connect addr = .ok ctx
        ∧ w1.sources[s.source]?
            = some { closed := false, svid := some ctx.svid, bundles := ctx.bundles } := by
    unfold TLSConfigSourceFromWorkloadAPI NewX509Source at h
    cases hc : env.connect addr with
    | error e => simp [hc] at h
    | ok ctx =>
        simp only [hc, Prod.mk.injEq, Option.some.injEq, and_true] at h
        obtain ⟨hs, hw⟩ := h
        subst hs hw
        exact ⟨by simp, ctx, rfl, by simp⟩
  obtain ⟨hfresh, ctx, hctx, hheld⟩ := hsrc
  have hsnap : holdsSnapshot s.source w1 = true := by simp [holdsSnapshot, hheld]
  refine ⟨hfresh, ?_, ⟨ctx, hctx, hheld⟩, fun _ => hsnap, rfl, runCalls_sources s calls w1, ?_⟩
  · intro addr0 log0 w0 e he
    simp [TLSConfigSourceFromWorkloadAPI, NewX509Source, he]
  · intro _
    simpa [holdsSnapshot, runCalls_sources] using hsnap

/-- Claim C4 at a concrete input: the source the constructor returns for the
answering Workload API holds `snapshotA`, also after a `GetServerConfig`, a
`Reload` and a `GetClientConfig`, and `CanServe` is true of it; at the address
where the Workload API does not answer there is no config source. -/
theorem CanServe_only_after_first_snapshot_witness :
    demoSource.CanServe = true
    ∧ holdsSnapshot 0 demoWorld = false
    ∧ holdsSnapshot 0 demoWorldA = true
    ∧ holdsSnapshot 0 (runCalls demoSource demoWorldA
          [Call.getServerConfig 0, Call.reload, Call.getClientConfig 0]) = true
    ∧ (TLSConfigSourceFromWorkloadAPI demoEnv "unix:///nowhere" demoLogger demoWorld).1
        = (none, some "connection refused") := by
  have h := CanServe_only_after_first_snapshot demoEnv "unix:///run/agent.sock" demoLogger
    demoWorld demoWorldA demoSource (by decide)
    [Call.getServerConfig 0, Call.reload, Call.getClientConfig 0]
  exact ⟨h.2.2.2.2.1, rfl, h.2.2.2.1 h.2.2.2.2.1, h.2.2.2.2.2.2 h.2.2.2.2.1,
    h.2.1 "unix:///nowhere" demoLogger demoWorld "connection refused"
      (by simp [demoEnv])⟩

/-! ## Refusal -/

/-- Claim C5 as stated fails: after `Close` the source at address `0` is closed,
and `GetClientConfig` and `GetServerConfig` on its config source still return a
config object and a nil error. -/
theorem closed_source_still_gives_configs :
    ∃ w1, demoSource.Close demoEnv demoWorldA = some (none, w1)
      ∧ (w1.sources[0]?).map (fun src => src.closed) = some true
      ∧ (demoSource.GetClientConfig 0 w1).1 = (some { base := 0, source := 0 }, none)
      ∧ (demoSource.GetServerConfig 0 w1).1 = (some { base := 0, source := 0 }, none) :=
  ⟨_, rfl, rfl, rfl, rfl⟩

/-- Claim C5 as amended: `GetClientConfig base` and `GetServerConfig base` never
return an error, whatever state the source is in: each returns a config object
bound to the base and the source, and a nil error. A closed source is refused
at handshake time instead: in the `tls.Config` made from such an object, the
client certificate closure returns the source's closed error, and the peer
verification closure of the client config and of the server config returns an
error for every peer chain; on an open source that holds no snapshot the
client certificate closure returns the missing-SVID error. -/
theorem configs_never_fail_closed_source_refused_in_handshake (env : Env)
    (s : spiffeTLSConfigSource) (base : Nat) (w : World) :
    (s.GetClientConfig base w).1 = (some { base := base, source := s.source }, none)
    ∧ (s.GetServerConfig base w).1 = (some { base := base, source := s.source }, none)
    ∧ ∀ w1 cfg, w1.configs[base]? = some cfg →
        (∃ p w2 r hC hV,
            spiffeTLSConfig.GetClientConfig { base := base, source := s.source } w1 = some (p, w2)
            ∧ w2.configs[p]? = some r
            ∧ r.GetClientCertificate = some hC ∧ r.VerifyPeerCertificate = some hV
            ∧ (∀ w3 src, w3.sources[s.source]? = some src → src.closed = true →
                hC.call env w3 = some (.error "x509source: source is closed")
                ∧ ∀ raw verified, ∃ e, hV.call env raw verified w3 = some (some e))
            ∧ ∀ w3 src, w3.sources[s.source]? = some src → src.closed = false →
                src.svid = none →
                hC.call env w3 = some (.error "x509source: missing X509-SVID"))
        ∧ (∃ p w2 r hV,
            spiffeTLSConfig.GetServerConfig { base := base, source := s.source } w1 = some (p, w2)
            ∧ w2.configs[p]? = some r
            ∧ r.VerifyPeerCertificate = some hV
            ∧ ∀ w3 src, w3.sources[s.source]? = some src → src.closed = true →
                ∀ raw verified, ∃ e, hV.call env raw verified w3 = some (some e)) := by
  refine ⟨rfl, rfl, ?_⟩
  intro w1 cfg h
  constructor
  · refine ⟨_, _, mtlsClientFields (SVIDSource.x509Source s.source)
      (BundleSource.x509Source s.source) AuthorizeAny cfg, _, _,
      GetClientConfig_of_some { base := base, source := s.source } w1 cfg h, by simp, rfl, rfl,
      ?_, ?_⟩
    · intro w3 src hsrc hclosed
      refine ⟨?_, fun raw verified =>
        VerifyHook_call_closed env s.source _ cfg.VerifyPeerCertificate w3 src raw verified
          hsrc hclosed⟩
      rw [CertHook_call_x509Source env s.source w3 src hsrc]
      simp [X509Source.GetX509SVID, hclosed]
    · intro w3 src hsrc hopen hnone
      rw [CertHook_call_x509Source env s.source w3 src hsrc]
      simp [X509Source.GetX509SVID, hopen, hnone]
  · refine ⟨_, _, mtlsServerFields (SVIDSource.svid SVID.zero)
      (BundleSource.x509Source s.source) AuthorizeAny cfg, _,
      GetServerConfig_of_some { base := base, source := s.source } w1 cfg h, by simp, rfl, ?_⟩
    intro w3 src hsrc hclosed raw verified
    exact VerifyHook_call_closed env s.source _ cfg.VerifyPeerCertificate w3 src raw verified
      hsrc hclosed

/-- Claim C5 as amended, at a concrete input: on the closed source the config
source still hands out a client config object without error, and that config's
certificate closure refuses in the handshake. -/
theorem configs_never_fail_closed_source_refused_in_handshake_witness :
    ∃ w1 p w2 r hC, demoSource.Close demoEnv demoWorldA = some (none, w1)
      ∧ (demoSource.GetClientConfig 0 w1).1 = (some { base := 0, source := 0 }, none)
      ∧ spiffeTLSConfig.GetClientConfig { base := 0, source := 0 } w1 = some (p, w2)
      ∧ w2.configs[p]? = some r ∧ r.GetClientCertificate = some hC
      ∧ hC.call demoEnv w1 = some (.error "x509source: source is closed") := by
  obtain ⟨w1, hw1⟩ : ∃ w1, demoSource.Close demoEnv demoWorldA = some (none, w1) := ⟨_, rfl⟩
  have hw : w1 = { demoWorldA with
      sources := [{ closed := true, svid := some snapshotA.svid, bundles := snapshotA.bundles }]
      trace := [Event.closeWatcher 0] } := by
    have h2 : demoSource.Close demoEnv demoWorldA = some (none,
        { demoWorldA with
          sources := [{ closed := true, svid := some snapshotA.svid, bundles := snapshotA.bundles }]
          trace := [Event.closeWatcher 0] }) := rfl
    rw [hw1] at h2
    simpa using h2
  have h := configs_never_fail_closed_source_refused_in_handshake demoEnv demoSource 0 w1
  obtain ⟨⟨p, w2, r, hC, hV, h1, h2, h3, _, hall, _⟩, _⟩ := h.2.2 w1 demoBase (by rw [hw]; rfl)
  exact ⟨w1, p, w2, r, hC, hw1, h.1, h1, h2, h3,
    (hall w1 { closed := true, svid := some snapshotA.svid, bundles := snapshotA.bundles }
      (by rw [hw]; rfl) rfl).1⟩

end Certloader
